import Mathlib

/-!
Verification of the `cdk-lambda-env-var` repository: a shallow embedding of
the custom-resource handler's `updateWithRetry` reconciliation loop, the
environment-variable merge semantics of the inline handler code, and the
`SetLambdaEnvironmentVariables` constructor's dependency-chain construction
and `computeFunctionHash` staleness token (source:
`src/set-lambda-environment-variables.ts` and its most recent snapshot).

Conventions of the embedding:
  * JavaScript objects holding environment variables are modelled as
    association lists `List (String × String)` with unique keys, looked up
    first-match; `{...current, [key]: value}` replaces the first binding of
    `key` in place or appends, and `delete newEnvVars[key]` drops the
    binding of `key`.
  * The remote Lambda service is an oracle `Nat → AttemptBehavior` giving,
    for each 1-based loop attempt, the outcome of that attempt's
    GetFunctionConfiguration call and (if reached) of its
    UpdateFunctionConfiguration call.  The executor records a trace: the
    final outcome, the number of fetches issued, the payload of each write
    issued, and each backoff sleep in order.
  * Errors are `name` plus optional `message`, mirroring JS `Error`
    objects where `message` may be absent (`error.message?.includes`).
-/

namespace CdkLambdaEnvVar

/-- A JavaScript-style error as observed by the handler's catch block:
a `name` (always present on AWS SDK errors) and an optional `message`. -/
structure LambdaError where
  name : String
  message : Option String
  deriving DecidableEq, Repr

/-- Does the list `s` start with the list `sub`? (Helper for modelling
JavaScript `String.prototype.includes`.) -/
def listStartsWith : List Char → List Char → Bool
  | [], _ => true
  | _ :: _, [] => false
  | c :: cs, d :: ds => c == d && listStartsWith cs ds

/-- Does `sub` occur as a contiguous run inside `s`? -/
def listHasSub (sub : List Char) : List Char → Bool
  | [] => sub.isEmpty
  | d :: ds => listStartsWith sub (d :: ds) || listHasSub sub ds

/-- JavaScript `s.includes(sub)`: `sub` occurs contiguously in `s`. -/
def strContains (s sub : String) : Bool :=
  listHasSub sub.toList s.toList

/-- Classification of a caught error, from the handler source:
`error.name === 'ResourceConflictException' ||
 error.message?.includes('An update is in progress')`.
When `message` is absent the optional chain yields `undefined`, which is
falsy. -/
def isRetryable (e : LambdaError) : Bool :=
  e.name == "ResourceConflictException" ||
    (match e.message with
     | some m => strContains m "An update is in progress"
     | none => false)

/-- First-match lookup in an association list, the JS property read. -/
def lookupEnv : List (String × String) → String → Option String
  | [], _ => none
  | (k, v) :: rest, key => if k == key then some v else lookupEnv rest key

/-- JS object-spread update `{...current, [key]: value}`: replace the
binding of `key` in place when present, otherwise append it. -/
def setKey : List (String × String) → String → String → List (String × String)
  | [], key, value => [(key, value)]
  | (k, v) :: rest, key, value =>
    if k == key then (key, value) :: rest else (k, v) :: setKey rest key value

/-- JS `delete obj[key]` on a copied object: drop the binding of `key`,
keep every other binding in order. -/
def removeKey : List (String × String) → String → List (String × String)
  | [], _ => []
  | (k, v) :: rest, key =>
    if k == key then removeKey rest key else (k, v) :: removeKey rest key

/-- The handler's merge step: `delete newEnvVars[key]` on Delete, the
spread update otherwise (handler lines computing `newEnvVars`). -/
def mergeEnv (current : List (String × String)) (isDelete : Bool)
    (key value : String) : List (String × String) :=
  if isDelete then removeKey current key
  else setKey current key value

theorem lookupEnv_setKey_self (current : List (String × String)) (key value : String) :
    lookupEnv (setKey current key value) key = some value := by
  induction current with
  | nil => simp [setKey, lookupEnv]
  | cons p rest ih =>
    obtain ⟨k, v⟩ := p
    by_cases h : k == key
    · simp [setKey, h, lookupEnv]
    · simp [setKey, h, lookupEnv, ih]

theorem lookupEnv_setKey_other (current : List (String × String))
    (key value other : String) (hne : other ≠ key) :
    lookupEnv (setKey current key value) other = lookupEnv current other := by
  induction current with
  | nil => simp [setKey, lookupEnv, Ne.symm hne]
  | cons p rest ih =>
    obtain ⟨k, v⟩ := p
    by_cases h : k == key
    · have hk : k = key := by simpa using h
      subst hk
      simp [setKey, lookupEnv, Ne.symm hne]
    · simp [setKey, h, lookupEnv, ih]

theorem lookupEnv_removeKey_self (current : List (String × String)) (key : String) :
    lookupEnv (removeKey current key) key = none := by
  induction current with
  | nil => simp [removeKey, lookupEnv]
  | cons p rest ih =>
    obtain ⟨k, v⟩ := p
    by_cases h : k == key
    · simp [removeKey, h, ih]
    · simp [removeKey, h, lookupEnv, ih]

theorem lookupEnv_removeKey_other (current : List (String × String))
    (key other : String) (hne : other ≠ key) :
    lookupEnv (removeKey current key) other = lookupEnv current other := by
  induction current with
  | nil => simp [removeKey]
  | cons p rest ih =>
    obtain ⟨k, v⟩ := p
    by_cases h : k == key
    · have hk : k = key := by simpa using h
      subst hk
      simp [removeKey, lookupEnv, Ne.symm hne, ih]
    · simp [removeKey, h, lookupEnv, ih]

/-- Claim C2: for every current mapping `C`, key `k` and value `v`,
`merge(C, Apply, k, v)` maps `k` to `v`, and every other key reads exactly
as it did in `C` (present keys keep their value, absent keys stay absent,
so no other key is added or removed). -/
theorem merge_apply_correct (current : List (String × String))
    (key value other : String) (hne : other ≠ key) :
    lookupEnv (mergeEnv current false key value) key = some value ∧
      lookupEnv (mergeEnv current false key value) other = lookupEnv current other := by
  constructor
  · simpa [mergeEnv] using lookupEnv_setKey_self current key value
  · simpa [mergeEnv] using lookupEnv_setKey_other current key value other hne

/-- Witness for C2 at a concrete input. -/
theorem merge_apply_correct_witness :
    ("A" : String) ≠ "B" ∧
      (lookupEnv (mergeEnv [("A", "1")] false "B" "2") "B" = some "2" ∧
        lookupEnv (mergeEnv [("A", "1")] false "B" "2") "A" = lookupEnv [("A", "1")] "A") :=
  ⟨by decide, merge_apply_correct [("A", "1")] "B" "2" "A" (by decide)⟩

/-- Claim C3: for every current mapping `C`, key `k` and any value,
`merge(C, Remove, k, _)` has no binding for `k` — whether or not `k` was
present beforehand — and every other key reads exactly as in `C`.  The
merge is a total Lean function, so it cannot raise on any input. -/
theorem merge_remove_correct (current : List (String × String))
    (key value other : String) (hne : other ≠ key) :
    lookupEnv (mergeEnv current true key value) key = none ∧
      lookupEnv (mergeEnv current true key value) other = lookupEnv current other := by
  constructor
  · simpa [mergeEnv] using lookupEnv_removeKey_self current key
  · simpa [mergeEnv] using lookupEnv_removeKey_other current key other hne

/-- Witness for C3 at a concrete input where the removed key is present. -/
theorem merge_remove_correct_witness :
    ("A" : String) ≠ "B" ∧
      (lookupEnv (mergeEnv [("A", "1"), ("B", "2")] true "B" "x") "B" = none ∧
        lookupEnv (mergeEnv [("A", "1"), ("B", "2")] true "B" "x") "A" =
          lookupEnv [("A", "1"), ("B", "2")] "A") :=
  ⟨by decide, merge_remove_correct [("A", "1"), ("B", "2")] "B" "x" "A" (by decide)⟩

/-- Outcome of one GetFunctionConfiguration call: the current environment
variables (`Environment?.Variables || {}` already applied) or a thrown
error. -/
inductive FetchResult where
  | ok (env : List (String × String))
  | err (e : LambdaError)
  deriving DecidableEq, Repr

/-- Outcome of one UpdateFunctionConfiguration call. -/
inductive WriteResult where
  | ok
  | err (e : LambdaError)
  deriving DecidableEq, Repr

/-- What the remote service does on one loop attempt: the fetch outcome
and, should the handler reach the write, the write outcome. -/
structure AttemptBehavior where
  fetch : FetchResult
  write : WriteResult
  deriving DecidableEq, Repr

/-- Observable trace of one `updateWithRetry` invocation: the final
outcome (`ok` = the JS function returned, `error e` = it threw `e`), how
many GetFunctionConfiguration calls were issued, the payload of each
UpdateFunctionConfiguration call issued in order, and each backoff sleep
duration (ms) in order. -/
structure RetryTrace where
  result : Except LambdaError Unit
  fetches : Nat
  writes : List (List (String × String))
  sleeps : List Nat
  deriving Repr

/-- `maxRetries` of the handler source. -/
def maxRetries : Nat := 10

/-- `maxDelay` of the handler source: cap at 40 seconds (ms). -/
def maxDelay : Nat := 40000

/-- The initial `delay` of the handler source: 10 seconds (ms). -/
def initialDelay : Nat := 10000

/-- One pass of the `for (let attempt = 1; attempt <= maxRetries; ...)`
loop of `updateWithRetry`, with the remaining number of loop iterations
(`fuel = maxRetries + 1 - attempt`) made explicit so that the recursion is
structural.  `fuel = 0` is the loop condition failing, after which the JS
function returns `undefined` — an `ok` result with no calls (unreachable
from the top-level entry, since the tenth failure is thrown).  The `try`
block covers both the fetch and the write, so a retryably-failing fetch
sleeps and retries exactly as a retryably-failing write does. -/
def updateWithRetryGo (behavior : Nat → AttemptBehavior) (key value : String)
    (isDelete : Bool) : Nat → Nat → Nat → RetryTrace
  | 0, _, _ => ⟨Except.ok (), 0, [], []⟩
  | fuel + 1, attempt, delay =>
    match (behavior attempt).fetch with
    | FetchResult.err e =>
      if isRetryable e && decide (attempt < maxRetries) then
        let r := updateWithRetryGo behavior key value isDelete fuel (attempt + 1)
          (min (delay * 2) maxDelay)
        ⟨r.result, r.fetches + 1, r.writes, delay :: r.sleeps⟩
      else
        ⟨Except.error e, 1, [], []⟩
    | FetchResult.ok env =>
      let newEnv := mergeEnv env isDelete key value
      match (behavior attempt).write with
      | WriteResult.ok => ⟨Except.ok (), 1, [newEnv], []⟩
      | WriteResult.err e =>
        if isRetryable e && decide (attempt < maxRetries) then
          let r := updateWithRetryGo behavior key value isDelete fuel (attempt + 1)
            (min (delay * 2) maxDelay)
          ⟨r.result, r.fetches + 1, newEnv :: r.writes, delay :: r.sleeps⟩
        else
          ⟨Except.error e, 1, [newEnv], []⟩

/-- `updateWithRetry(functionArn, key, value, isDelete)` of the handler
source, as a trace over a given remote behavior: attempt 1, delay 10000,
ten loop iterations available. -/
def updateWithRetry (behavior : Nat → AttemptBehavior) (key value : String)
    (isDelete : Bool) : RetryTrace :=
  updateWithRetryGo behavior key value isDelete maxRetries 1 initialDelay

/-- The CloudFormation custom-resource event fields the handler reads. -/
structure CfnEvent where
  requestType : String
  functionArn : String
  key : String
  value : String
  deriving DecidableEq, Repr

/-- The handler's success response: `PhysicalResourceId` and `Data.Key`. -/
structure HandlerResponse where
  physicalResourceId : String
  dataKey : String
  deriving DecidableEq, Repr

/-- `exports.handler` of the handler source: run `updateWithRetry` with
`isDelete = (event.RequestType === 'Delete')`; on success respond with
`PhysicalResourceId: key` and `Data: { Key: key }`; rethrow any error. -/
def handler (ev : CfnEvent) (behavior : Nat → AttemptBehavior) :
    Except LambdaError HandlerResponse :=
  match (updateWithRetry behavior ev.key ev.value (ev.requestType == "Delete")).result with
  | Except.ok _ => Except.ok ⟨ev.key, ev.key⟩
  | Except.error e => Except.error e

/-- Remote behavior of the conflict-retry scenario: every fetch returns
`env`; the write fails with `e` on every attempt before attempt `n` and
succeeds on attempt `n`. -/
def conflictBehavior (env : List (String × String)) (e : LambdaError) (n : Nat) :
    Nat → AttemptBehavior :=
  fun i => ⟨FetchResult.ok env, if i < n then WriteResult.err e else WriteResult.ok⟩

/-- Claim C4: when the first `n - 1` writes fail with a retryably-classified
conflict error and the `n`-th succeeds (`1 ≤ n ≤ 10 = MAX_ATTEMPTS`),
`updateWithRetry` returns success, issues exactly `n` fetches and `n`
writes, and the sleep before retry `i + 1` is
`min(10000 * 2 ^ (i - 1), 40000)` ms (initial delay 10 s doubling, capped
at 40 s). -/
theorem conflict_retry_success (n : Nat) (e : LambdaError) (env : List (String × String))
    (key value : String) (isDelete : Bool)
    (h1 : 1 ≤ n) (h2 : n ≤ 10) (hre : isRetryable e = true) :
    (updateWithRetry (conflictBehavior env e n) key value isDelete).result = Except.ok () ∧
      (updateWithRetry (conflictBehavior env e n) key value isDelete).fetches = n ∧
      (updateWithRetry (conflictBehavior env e n) key value isDelete).writes.length = n ∧
      (updateWithRetry (conflictBehavior env e n) key value isDelete).sleeps =
        (List.range (n - 1)).map (fun j => min (initialDelay * 2 ^ j) maxDelay) := by
  interval_cases n <;>
    simp [updateWithRetry, updateWithRetryGo, conflictBehavior, hre,
      maxRetries, initialDelay, maxDelay, List.range_succ]

/-- Witness for C4: three attempts, the first two rejected with
`ResourceConflictException`. -/
theorem conflict_retry_success_witness :
    (1 ≤ 3 ∧ 3 ≤ 10 ∧ isRetryable ⟨"ResourceConflictException", none⟩ = true) ∧
      ((updateWithRetry (conflictBehavior [("A", "1")] ⟨"ResourceConflictException", none⟩ 3)
          "K" "V" false).result = Except.ok () ∧
        (updateWithRetry (conflictBehavior [("A", "1")] ⟨"ResourceConflictException", none⟩ 3)
          "K" "V" false).fetches = 3 ∧
        (updateWithRetry (conflictBehavior [("A", "1")] ⟨"ResourceConflictException", none⟩ 3)
          "K" "V" false).writes.length = 3 ∧
        (updateWithRetry (conflictBehavior [("A", "1")] ⟨"ResourceConflictException", none⟩ 3)
          "K" "V" false).sleeps =
          (List.range (3 - 1)).map (fun j => min (initialDelay * 2 ^ j) maxDelay)) :=
  ⟨⟨by decide, by decide, by decide⟩,
    conflict_retry_success 3 ⟨"ResourceConflictException", none⟩ [("A", "1")] "K" "V" false
      (by decide) (by decide) (by decide)⟩

/-- Remote behavior of the exhaustion scenario: every fetch returns `env`
and every write fails with `e`. -/
def allConflictBehavior (env : List (String × String)) (e : LambdaError) :
    Nat → AttemptBehavior :=
  fun _ => ⟨FetchResult.ok env, WriteResult.err e⟩

/-- Claim C5: when all `MAX_ATTEMPTS = 10` writes fail with a
retryably-classified conflict error, `updateWithRetry` throws that
underlying error, issues exactly 10 fetches and 10 writes (none beyond the
tenth), and sleeps only between the ten attempts (9 sleeps). -/
theorem conflict_retry_exhaustion (e : LambdaError) (env : List (String × String))
    (key value : String) (isDelete : Bool) (hre : isRetryable e = true) :
    (updateWithRetry (allConflictBehavior env e) key value isDelete).result =
        Except.error e ∧
      (updateWithRetry (allConflictBehavior env e) key value isDelete).fetches = 10 ∧
      (updateWithRetry (allConflictBehavior env e) key value isDelete).writes.length = 10 ∧
      (updateWithRetry (allConflictBehavior env e) key value isDelete).sleeps.length = 9 := by
  simp [updateWithRetry, updateWithRetryGo, allConflictBehavior, hre,
    maxRetries, initialDelay, maxDelay]

/-- Witness for C5 at a concrete conflict error. -/
theorem conflict_retry_exhaustion_witness :
    isRetryable ⟨"ResourceConflictException", none⟩ = true ∧
      ((updateWithRetry (allConflictBehavior [] ⟨"ResourceConflictException", none⟩)
          "K" "V" false).result = Except.error ⟨"ResourceConflictException", none⟩ ∧
        (updateWithRetry (allConflictBehavior [] ⟨"ResourceConflictException", none⟩)
          "K" "V" false).fetches = 10 ∧
        (updateWithRetry (allConflictBehavior [] ⟨"ResourceConflictException", none⟩)
          "K" "V" false).writes.length = 10 ∧
        (updateWithRetry (allConflictBehavior [] ⟨"ResourceConflictException", none⟩)
          "K" "V" false).sleeps.length = 9) :=
  ⟨by decide,
    conflict_retry_exhaustion ⟨"ResourceConflictException", none⟩ [] "K" "V" false (by decide)⟩

/-- Claim C6: on any attempt (any remaining fuel, any attempt number, any
current delay) where the fetch, or the write after a successful fetch,
fails with an error not classified as a concurrent-modification conflict,
the loop aborts at once with that error: no sleep, no further fetch or
write beyond the failing call itself. -/
theorem nonretryable_aborts (behavior : Nat → AttemptBehavior) (key value : String)
    (isDelete : Bool) (fuel attempt delay : Nat) (e : LambdaError)
    (hre : isRetryable e = false) :
    ((behavior attempt).fetch = FetchResult.err e →
        updateWithRetryGo behavior key value isDelete (fuel + 1) attempt delay =
          ⟨Except.error e, 1, [], []⟩) ∧
      (∀ env, (behavior attempt).fetch = FetchResult.ok env →
        (behavior attempt).write = WriteResult.err e →
        updateWithRetryGo behavior key value isDelete (fuel + 1) attempt delay =
          ⟨Except.error e, 1, [mergeEnv env isDelete key value], []⟩) := by
  constructor
  · intro hf
    simp [updateWithRetryGo, hf, hre]
  · intro env hf hw
    simp [updateWithRetryGo, hf, hw, hre]

/-- Witness for C6: a non-retryable `AccessDeniedException` on the first
fetch of a full run (fuel 10, attempt 1, delay 10000). -/
theorem nonretryable_aborts_witness :
    isRetryable ⟨"AccessDeniedException", some "denied"⟩ = false ∧
      ((((fun _ => ⟨FetchResult.err ⟨"AccessDeniedException", some "denied"⟩,
            WriteResult.ok⟩ : Nat → AttemptBehavior) 1).fetch =
          FetchResult.err ⟨"AccessDeniedException", some "denied"⟩ →
        updateWithRetryGo
          (fun _ => ⟨FetchResult.err ⟨"AccessDeniedException", some "denied"⟩, WriteResult.ok⟩)
          "K" "V" false (9 + 1) 1 10000 =
          ⟨Except.error ⟨"AccessDeniedException", some "denied"⟩, 1, [], []⟩) ∧
      (∀ env, ((fun _ => ⟨FetchResult.err ⟨"AccessDeniedException", some "denied"⟩,
            WriteResult.ok⟩ : Nat → AttemptBehavior) 1).fetch = FetchResult.ok env →
        ((fun _ => ⟨FetchResult.err ⟨"AccessDeniedException", some "denied"⟩,
            WriteResult.ok⟩ : Nat → AttemptBehavior) 1).write =
          WriteResult.err ⟨"AccessDeniedException", some "denied"⟩ →
        updateWithRetryGo
          (fun _ => ⟨FetchResult.err ⟨"AccessDeniedException", some "denied"⟩, WriteResult.ok⟩)
          "K" "V" false (9 + 1) 1 10000 =
          ⟨Except.error ⟨"AccessDeniedException", some "denied"⟩, 1,
            [mergeEnv env false "K" "V"], []⟩)) :=
  ⟨by decide,
    nonretryable_aborts
      (fun _ => ⟨FetchResult.err ⟨"AccessDeniedException", some "denied"⟩, WriteResult.ok⟩)
      "K" "V" false 9 1 10000 ⟨"AccessDeniedException", some "denied"⟩ (by decide)⟩

/-- Claim C7: whenever the handler succeeds, its response carries
`PhysicalResourceId = event.Key` and `Data.Key = event.Key`, so reconciling
the same key again reuses the same stable identifier. -/
theorem handler_stable_identity (ev : CfnEvent) (behavior : Nat → AttemptBehavior)
    (r : HandlerResponse) (h : handler ev behavior = Except.ok r) :
    r.physicalResourceId = ev.key ∧ r.dataKey = ev.key := by
  unfold handler at h
  cases hres : (updateWithRetry behavior ev.key ev.value (ev.requestType == "Delete")).result with
  | ok u =>
    rw [hres] at h
    cases h
    exact ⟨rfl, rfl⟩
  | error e =>
    rw [hres] at h
    cases h

/-- Witness for C7: a first-attempt success on a Create event for key
`"K"`. -/
theorem handler_stable_identity_witness :
    handler ⟨"Create", "arn:f", "K", "V"⟩ (fun _ => ⟨FetchResult.ok [], WriteResult.ok⟩) =
        Except.ok ⟨"K", "K"⟩ ∧
      (HandlerResponse.mk "K" "K").physicalResourceId = (CfnEvent.mk "Create" "arn:f" "K" "V").key ∧
      (HandlerResponse.mk "K" "K").dataKey = (CfnEvent.mk "Create" "arn:f" "K" "V").key :=
  ⟨by rfl,
    handler_stable_identity ⟨"Create", "arn:f", "K", "V"⟩
      (fun _ => ⟨FetchResult.ok [], WriteResult.ok⟩) ⟨"K", "K"⟩ (by rfl)⟩

/-- Counterexample to claim C9 as stated: the error
`{ name: 'ValidationException', message: 'An update is in progress' }`
exposes a structured kind that is not the conflict kind, yet the handler
classifies it as a retryable conflict purely because of its message text
(`||` in the classification expression). -/
theorem classification_ignores_structured_kind :
    isRetryable ⟨"ValidationException", some "An update is in progress"⟩ = true ∧
      ("ValidationException" : String) ≠ "ResourceConflictException" := by
  constructor
  · decide
  · decide

/-- Claim C9 as amended: classification happens once, in the catch block of
the failing attempt, and an error is classified as a retryable conflict iff
its structured kind is `ResourceConflictException` OR its message text
contains `"An update is in progress"` — the message test applies even when
a structured non-conflict kind is present. -/
theorem classification_characterization (e : LambdaError) :
    isRetryable e = true ↔
      (e.name = "ResourceConflictException" ∨
        ∃ m, e.message = some m ∧ strContains m "An update is in progress" = true) := by
  unfold isRetryable
  cases hm : e.message with
  | none => simp [hm]
  | some m => simp [hm]

/-- One custom resource created by the `SetLambdaEnvironmentVariables`
constructor loop: its `ResourceProperties` (`FunctionArn`, `Key`, `Value`,
and the optional `FunctionHash`, spread in only when the hash is defined)
plus the explicit predecessor dependency registered with
`resource.node.addDependency(previousResource)` — `none` for the first
resource, otherwise the key of the unit created just before it. -/
structure ReconciliationUnit where
  functionArn : String
  key : String
  value : String
  functionHash : Option String
  dependsOn : Option String
  deriving DecidableEq, Repr

/-- The constructor's `Object.entries(props.environment).forEach` loop,
with the `previousResource` variable made an explicit parameter (`prev` is
the key of the previously created resource, `none` before the first
iteration). -/
def buildChainGo (arn : String) (hash : Option String) (prev : Option String) :
    List (String × String) → List ReconciliationUnit
  | [] => []
  | (k, v) :: rest => ⟨arn, k, v, hash, prev⟩ :: buildChainGo arn hash (some k) rest

/-- The chain the constructor builds for a target `arn`, a staleness hash,
and the entries of `props.environment` in insertion order. -/
def buildChain (arn : String) (hash : Option String)
    (pairs : List (String × String)) : List ReconciliationUnit :=
  buildChainGo arn hash none pairs

theorem buildChainGo_spec (arn : String) (hash : Option String)
    (pairs : List (String × String)) : ∀ prev : Option String,
    (buildChainGo arn hash prev pairs).map (fun u => (u.key, u.value)) = pairs ∧
      (buildChainGo arn hash prev pairs).map (fun u => u.dependsOn) =
        (prev :: pairs.map (fun p => some p.1)).take pairs.length := by
  induction pairs with
  | nil => intro prev; simp [buildChainGo]
  | cons p rest ih =>
    intro prev
    obtain ⟨k, v⟩ := p
    simpa [buildChainGo] using ih (some k)

/-- Claim C1: the constructor creates exactly one unit per desired
`(key, value)` pair, in the caller-supplied order, and registers an
explicit predecessor dependency from each unit on the unit created just
before it (the first unit has none), so consecutive units can never be
scheduled concurrently. -/
theorem chain_one_unit_per_pair_serialized (arn : String) (hash : Option String)
    (pairs : List (String × String)) :
    (buildChain arn hash pairs).map (fun u => (u.key, u.value)) = pairs ∧
      (buildChain arn hash pairs).map (fun u => u.dependsOn) =
        (none :: pairs.map (fun p => some p.1)).take pairs.length :=
  buildChainGo_spec arn hash pairs none

/-- Resolved CloudFormation JSON for the target function, as
`stack.resolve((cfnFunction as any)._toCloudFormation())` yields it: string
leaves and objects whose fields keep the order in which the template
declares them (JavaScript objects preserve property insertion order, and
`JSON.stringify` serializes in that order). -/
inductive Json where
  | str (s : String)
  | obj (fields : List (String × Json))

/-- JSON string quoting as `JSON.stringify` performs it, escaping the
quote and backslash characters (the configurations hashed here contain no
control characters, so those escapes are not modelled). -/
def quoteStr (s : String) : String :=
  "\"" ++ String.mk ((s.toList.map
    (fun c => if c == '"' || c == '\\' then ['\\', c] else [c])).flatten) ++ "\""

mutual

/-- `JSON.stringify` (no spacing): fields in declaration order. -/
def jsonStringify : Json → String
  | Json.str s => quoteStr s
  | Json.obj fields => "\x7b" ++ jsonFields fields ++ "\x7d"

/-- Comma-separated serialization of an object's fields, in order. -/
def jsonFields : List (String × Json) → String
  | [] => ""
  | [(k, v)] => quoteStr k ++ ":" ++ jsonStringify v
  | (k, v) :: f :: rest => quoteStr k ++ ":" ++ jsonStringify v ++ "," ++ jsonFields (f :: rest)

end

/-- Bytes of an ASCII string (UTF-8 agrees with the code points for the
ASCII configurations hashed here). -/
def strBytes (s : String) : List Nat :=
  s.toList.map Char.toNat

/-- Reduction modulo 2^32, the word size of SHA-256 arithmetic. -/
def mod32 (n : Nat) : Nat := n % 4294967296

/-- Rotate a 32-bit word right by `n`. -/
def rotr (n x : Nat) : Nat := (x >>> n) ||| mod32 (x <<< (32 - n))

/-- SHA-256 choice function. -/
def ch (x y z : Nat) : Nat := (x &&& y) ^^^ ((x ^^^ 4294967295) &&& z)

/-- SHA-256 majority function. -/
def maj (x y z : Nat) : Nat := (x &&& y) ^^^ (x &&& z) ^^^ (y &&& z)

/-- SHA-256 Σ0. -/
def bigSigma0 (x : Nat) : Nat := rotr 2 x ^^^ rotr 13 x ^^^ rotr 22 x

/-- SHA-256 Σ1. -/
def bigSigma1 (x : Nat) : Nat := rotr 6 x ^^^ rotr 11 x ^^^ rotr 25 x

/-- SHA-256 σ0. -/
def smallSigma0 (x : Nat) : Nat := rotr 7 x ^^^ rotr 18 x ^^^ (x >>> 3)

/-- SHA-256 σ1. -/
def smallSigma1 (x : Nat) : Nat := rotr 17 x ^^^ rotr 19 x ^^^ (x >>> 10)

/-- The low `k` 32-bit words of a number, most significant first. -/
def natToWords : Nat → Nat → List Nat
  | 0, _ => []
  | k + 1, n => natToWords k (n >>> 32) ++ [mod32 n]

/-- The 64 SHA-256 round constants K (FIPS 180-4 §4.2.2), packed eight
words to a literal. -/
def sha256K : List Nat :=
  ([0x428a2f9871374491b5c0fbcfe9b5dba53956c25b59f111f1923f82a4ab1c5ed5,
    0xd807aa9812835b01243185be550c7dc372be5d7480deb1fe9bdc06a7c19bf174,
    0xe49b69c1efbe47860fc19dc6240ca1cc2de92c6f4a7484aa5cb0a9dc76f988da,
    0x983e5152a831c66db00327c8bf597fc7c6e00bf3d5a7914706ca635114292967,
    0x27b70a852e1b21384d2c6dfc53380d13650a7354766a0abb81c2c92e92722c85,
    0xa2bfe8a1a81a664bc24b8b70c76c51a3d192e819d6990624f40e3585106aa070,
    0x19a4c1161e376c082748774c34b0bcb5391c0cb34ed8aa4a5b9cca4f682e6ff3,
    0x748f82ee78a5636f84c878148cc7020890befffaa4506cebbef9a3f7c67178f2].map
    (natToWords 8)).flatten

/-- The eight SHA-256 initial hash values (FIPS 180-4 §5.3.3). -/
def sha256initH : List Nat :=
  natToWords 8 0x6a09e667bb67ae853c6ef372a54ff53a510e527f9b05688c1f83d9ab5be0cd19

/-- A number as `k` big-endian bytes. -/
def beBytes : Nat → Nat → List Nat
  | 0, _ => []
  | k + 1, n => beBytes k (n / 256) ++ [n % 256]

/-- SHA-256 message padding: append `0x80`, zero bytes to 56 mod 64, and
the 64-bit big-endian bit length. -/
def sha256pad (msg : List Nat) : List Nat :=
  msg ++ [128] ++ List.replicate ((120 - (msg.length + 1) % 64) % 64) 0 ++
    beBytes 8 (msg.length * 8)

/-- Group bytes into big-endian 32-bit words. -/
def bytesToWords : List Nat → List Nat
  | b0 :: b1 :: b2 :: b3 :: rest =>
    (((b0 * 256 + b1) * 256 + b2) * 256 + b3) :: bytesToWords rest
  | _ => []

/-- Split a word list into 16-word blocks; the fuel argument (any bound on
the number of blocks, each step consuming at least one word) keeps the
recursion structural so that the kernel can evaluate the function. -/
def chunk16Go : Nat → List Nat → List (List Nat)
  | 0, _ => []
  | _, [] => []
  | fuel + 1, w :: ws => (w :: ws).take 16 :: chunk16Go fuel ((w :: ws).drop 16)

/-- Split a word list into 16-word blocks. -/
def chunk16 (l : List Nat) : List (List Nat) :=
  chunk16Go l.length l

/-- Extend the message schedule by `k` further words. -/
def sha256scheduleAux : List Nat → Nat → List Nat
  | w, 0 => w
  | w, k + 1 =>
    let n := w.length
    sha256scheduleAux
      (w ++ [mod32 (smallSigma1 (w.getD (n - 2) 0) + w.getD (n - 7) 0 +
        smallSigma0 (w.getD (n - 15) 0) + w.getD (n - 16) 0)]) k

/-- The 64-word message schedule of one block. -/
def sha256schedule (block : List Nat) : List Nat :=
  sha256scheduleAux block 48

/-- One SHA-256 round on the working variables `[a,b,c,d,e,f,g,h]`. -/
def sha256round (st : List Nat) (k w : Nat) : List Nat :=
  match st with
  | [a, b, c, d, e, f, g, h] =>
    let t1 := mod32 (h + bigSigma1 e + ch e f g + k + w)
    let t2 := mod32 (bigSigma0 a + maj a b c)
    [mod32 (t1 + t2), a, b, c, mod32 (d + t1), e, f, g]
  | other => other

/-- SHA-256 compression of one 16-word block into the running hash. -/
def sha256compress (st : List Nat) (block : List Nat) : List Nat :=
  let w := sha256schedule block
  let fin := (sha256K.zip w).foldl (fun s kw => sha256round s kw.1 kw.2) st
  List.zipWith (fun x y => mod32 (x + y)) st fin

/-- The eight 32-bit digest words of a byte message. -/
def sha256digestWords (msg : List Nat) : List Nat :=
  (chunk16 (bytesToWords (sha256pad msg))).foldl sha256compress sha256initH

/-- A hex digit character, lowercase as Node's `digest('hex')` emits. -/
def hexChar (n : Nat) : Char :=
  if n < 10 then Char.ofNat (48 + n) else Char.ofNat (87 + n)

/-- A word as `k` hex digits, most significant first. -/
def hexWordAux : Nat → Nat → List Char
  | 0, _ => []
  | k + 1, n => hexWordAux k (n / 16) ++ [hexChar (n % 16)]

/-- The 64 hex characters of a byte message's SHA-256 digest. -/
def sha256hexChars (msg : List Nat) : List Char :=
  ((sha256digestWords msg).map (fun w => hexWordAux 8 w)).flatten

/-- `crypto.createHash('sha256').update(s).digest('hex')` for an ASCII
string. -/
def sha256hex (s : String) : String :=
  String.mk (sha256hexChars (strBytes s))

/-- FIPS 180 test vector validating the SHA-256 model. -/
theorem sha256hex_abc :
    sha256hex "abc" =
      "ba7816bf8f01cfea414140de5dae2223b00361a396177a9cb410ff61f20015ad" := by
  rfl

/-- `computeFunctionHash` of the construct source, as the pure function of
the resolved configuration snapshot that the deferred `Lazy.string`
producer computes at synthesis time: `undefined` when the target has no
`CfnFunction` default child (imported function), otherwise the first 16
hex characters of the SHA-256 of `JSON.stringify(resolved)`. -/
def computeFunctionHash : Option Json → Option String
  | none => none
  | some cfg => some (String.mk ((sha256hexChars (strBytes (jsonStringify cfg))).take 16))

/-- The constructor end-to-end: compute the staleness hash once from the
target's resolved configuration (if any), then build the unit chain.  The
spread `...(functionHash && \x7b FunctionHash: functionHash \x7d)` includes
the property exactly when `functionHash` is defined — at construct time it
is either `undefined` or a non-empty `Lazy` token string, so truthiness is
definedness. -/
def buildChainFromConfig (arn : String) (cfn : Option Json)
    (pairs : List (String × String)) : List ReconciliationUnit :=
  buildChain arn (computeFunctionHash cfn) pairs

theorem buildChainGo_functionHash (arn : String) (hash : Option String)
    (pairs : List (String × String)) : ∀ prev : Option String,
    (buildChainGo arn hash prev pairs).map (fun u => u.functionHash) =
      List.replicate pairs.length hash := by
  induction pairs with
  | nil => intro prev; simp [buildChainGo]
  | cons p rest ih =>
    intro prev
    obtain ⟨k, v⟩ := p
    simpa [buildChainGo, List.replicate_succ] using ih (some k)

theorem buildChainGo_arn_key_value (arn : String) (hash : Option String)
    (pairs : List (String × String)) : ∀ prev : Option String,
    (buildChainGo arn hash prev pairs).map (fun u => (u.functionArn, u.key, u.value)) =
      pairs.map (fun p => (arn, p.1, p.2)) := by
  induction pairs with
  | nil => intro prev; simp [buildChainGo]
  | cons p rest ih =>
    intro prev
    obtain ⟨k, v⟩ := p
    simpa [buildChainGo] using ih (some k)

/-- Claim C8 as amended: the staleness token is computed once per chain
build from the target's resolved configuration and every unit of the chain
receives that same token; the hash is a deterministic function of the
serialized configuration, but it is *order-sensitive*, not
order-independent — `JSON.stringify` keeps declaration order, so the same
properties listed in a different order produce a different token (see the
counterexample). -/
theorem chain_staleness_token_shared (cfn : Option Json) (arn : String)
    (pairs : List (String × String)) :
    (buildChainFromConfig arn cfn pairs).map (fun u => u.functionHash) =
      List.replicate pairs.length (computeFunctionHash cfn) :=
  buildChainGo_functionHash arn (computeFunctionHash cfn) pairs none

/-- A resolved configuration with `Handler` declared before `Runtime`. -/
def cfgHandlerFirst : Json :=
  Json.obj [("Handler", Json.str "index.handler"), ("Runtime", Json.str "nodejs24.x")]

/-- The same properties with the same values, declared in the other
order. -/
def cfgRuntimeFirst : Json :=
  Json.obj [("Runtime", Json.str "nodejs24.x"), ("Handler", Json.str "index.handler")]

/-- Counterexample to claim C8 as stated: two declared configurations
containing the same properties with the same values, listed in different
orders, receive different staleness tokens — the hash is over the
order-preserving `JSON.stringify` serialization, so it is not
order-independent. -/
theorem staleness_token_order_dependent :
    computeFunctionHash (some cfgHandlerFirst) ≠ computeFunctionHash (some cfgRuntimeFirst) := by
  decide

/-- Claim C10: for a target with no `CfnFunction` default child (an
imported function) `computeFunctionHash` yields no token, the
`FunctionHash` property is omitted from every unit of the chain, and the
remaining unit properties `FunctionArn`, `Key` and `Value` are exactly as
for any other target. -/
theorem imported_function_no_hash (arn : String) (pairs : List (String × String)) :
    computeFunctionHash none = none ∧
      (buildChainFromConfig arn none pairs).map (fun u => u.functionHash) =
        List.replicate pairs.length none ∧
      (buildChainFromConfig arn none pairs).map (fun u => (u.functionArn, u.key, u.value)) =
        pairs.map (fun p => (arn, p.1, p.2)) :=
  ⟨rfl,
    buildChainGo_functionHash arn (computeFunctionHash none) pairs none,
    buildChainGo_arn_key_value arn (computeFunctionHash none) pairs none⟩

end CdkLambdaEnvVar
